import Mathlib

/-!
# Verification of the bittensor-utils conditional staking watchers

Shallow embedding of the two watcher scripts of this repository:

* `src/auto_buy_alpha.py` — the buy-side watcher: polls a subnet price and, when
  the price is at or below a configured TAO threshold, stakes a configured
  amount from the coldkey's liquid balance (the `AutoBuy` namespace).
* `src/sell.py` — the sell-side watcher: polls the price of subnet 117 in a
  tight loop and unstakes a fixed amount when the price is strictly above the
  trigger threshold (the `Sell` namespace).

Decimal TAO amounts are embedded as rationals `ℚ`.  Fallible chain queries are
`Option`-valued cycle inputs (`Option.none` models a raised exception caught by
the corresponding `except` clause).  The poll loops are embedded as a cycle
function on the mutable state together with a driver that folds the cycle over
a finite schedule of per-cycle environments.
-/

namespace AutoBuy

/-- The configuration fields of `src/auto_buy_alpha.py` that the poll loop and
its decision logic read: `args.threshold_tao`, `args.amount_tao`,
`args.allow_partial`, `args.max_stakes` (the `--max-swaps` flag) and
`args.dry_run`.  Fields irrelevant to control flow (network, wallet identity,
rate tolerance, wait flags, interval length) are omitted. -/
structure Args where
  thresholdTao : ℚ
  amountTao : ℚ
  allowPartial : Bool
  maxStakes : Nat
  dryRun : Bool
deriving DecidableEq, Repr

/-- The decision produced by one poll cycle of the buy watcher: either skip the
cycle (every `continue` path of the loop body) or submit a stake of the given
TAO amount.  The spec calls this `ActionDecision` with variants
`None | Execute(amount)`. -/
inductive Decision where
  | none
  | execute (amountTao : ℚ)
deriving DecidableEq, Repr

/-- Decision logic of one poll cycle of the buy watcher, lines 277–312 of
`src/auto_buy_alpha.py`: the threshold test `price.tao <= args.threshold_tao`,
the `coldkey_balance is None` skip, the `available_tao <= 0` skip, the
insufficient-balance skip when partial staking is disallowed, the sizing
`min(available_tao, requested_tao) if args.allow_partial else requested_tao`,
and the final `stake_tao <= 0` skip.  `coldkeyBalance = Option.none` models the
balance query having raised (line 248). -/
def buyDecide (args : Args) (priceTao : ℚ) (coldkeyBalance : Option ℚ) : Decision :=
  if priceTao ≤ args.thresholdTao then
    match coldkeyBalance with
    | Option.none => Decision.none
    | Option.some available =>
      if available ≤ 0 then Decision.none
      else if args.allowPartial = false ∧ available < args.amountTao then Decision.none
      else
        let stakeTao := if args.allowPartial then min available args.amountTao else args.amountTao
        if stakeTao ≤ 0 then Decision.none
        else Decision.execute stakeTao
  else Decision.none

/-- The funding conditions of the buy watcher, read off the same lines
282–310: the balance query succeeded, the liquid balance is positive, either
partial staking is allowed or the balance covers the requested amount, and the
resulting stake size is positive. -/
def fundingOk (args : Args) (coldkeyBalance : Option ℚ) : Bool :=
  match coldkeyBalance with
  | Option.none => false
  | Option.some available =>
      decide (0 < available) &&
      (args.allowPartial || decide (args.amountTao ≤ available)) &&
      decide (0 < if args.allowPartial then min available args.amountTao else args.amountTao)

lemma buyDecide_of_gt (args : Args) (priceTao : ℚ) (bal : Option ℚ)
    (h : args.thresholdTao < priceTao) : buyDecide args priceTao bal = Decision.none := by
  simp [buyDecide, not_le.mpr h]

lemma buyDecide_ne_none_iff (args : Args) (priceTao : ℚ) (bal : Option ℚ) :
    buyDecide args priceTao bal ≠ Decision.none ↔
      priceTao ≤ args.thresholdTao ∧ fundingOk args bal = true := by
  unfold buyDecide fundingOk
  rcases bal with _ | available
  · split <;> simp
  · by_cases hp : priceTao ≤ args.thresholdTao
    · simp only [if_pos hp]
      by_cases h0 : available ≤ 0
      · simp [if_pos h0, hp, not_le.mp, not_le.mpr, h0, not_lt.mpr h0]
      · rw [if_neg h0]
        push_neg at h0
        by_cases hpart : args.allowPartial
        · simp only [hpart]
          by_cases hs : min available args.amountTao ≤ 0
          · simp [hs, hp, hpart, not_lt.mpr hs]
          · simp [hs, hp, hpart, h0, not_le.mp hs, le_of_lt (not_le.mp hs)]
        · simp only [Bool.not_eq_true] at hpart
          simp only [hpart]
          by_cases hins : available < args.amountTao
          · simp [hins, hp, hpart, h0, not_le.mpr hins]
          · push_neg at hins
            by_cases hs : args.amountTao ≤ 0
            · simp [hins, hp, hpart, h0, hs, not_lt.mpr hs]
            · simp [hins, hp, hpart, h0, hs, not_le.mp hs]
    · simp [if_neg hp, hp]

lemma buyDecide_full (args : Args) (priceTao : ℚ) (available : ℚ)
    (hp : priceTao ≤ args.thresholdTao) (hreq : 0 < args.amountTao)
    (hb : args.amountTao ≤ available) (hpart : args.allowPartial = false) :
    buyDecide args priceTao (Option.some available) = Decision.execute args.amountTao := by
  have h0 : ¬available ≤ 0 := not_le.mpr (lt_of_lt_of_le hreq hb)
  simp [buyDecide, hp, hpart, h0, not_lt.mpr hb, not_le.mpr hreq]

/-- The chain-facing events of one iteration of the while loop (lines 230–348):
the price query (line 236, `Option.none` = raised), the coldkey balance query
(line 247, `Option.none` = raised) and, when the loop submits, the outcome of
`subtensor.add_stake` (lines 325–335): `Option.none` = the call raised,
`Option.some b` = the call returned `b`. -/
structure CycleEnv where
  priceTao : Option ℚ
  coldkeyBalance : Option ℚ
  submitResult : Option Bool
deriving DecidableEq, Repr

/-- Observable outcome of one loop iteration: the counter `stakes_completed`
after the iteration, whether `subtensor.add_stake` was called, and whether the
iteration slept the full poll interval before the next guard check (every path
does, except a `break` at line 346, which exits before the sleep at line 348). -/
structure CycleOut where
  completed : Nat
  submitCalled : Bool
  sleptInterval : Bool
deriving DecidableEq, Repr

/-- One iteration of the while loop of `main`, lines 230–348 of
`src/auto_buy_alpha.py`, as a function of the cycle's chain events and the
counter `stakes_completed`.  A failed price query logs, sleeps and continues
(lines 237–240).  A skipping decision (any `continue` path of lines 277–310, or
a price above threshold falling through to line 348) sleeps and continues.  On
`Decision.execute`: in dry-run mode the counter is incremented without any
chain call (lines 314–318); otherwise `add_stake` is called and the counter is
incremented exactly on the return value `True` (lines 323–343), a raise or a
`False` return leaving it unchanged; then line 345 breaks — skipping the final
sleep — iff `max_stakes` is nonzero and the counter has reached it. -/
def buyCycle (args : Args) (env : CycleEnv) (completed : Nat) : CycleOut :=
  match env.priceTao with
  | Option.none => ⟨completed, false, true⟩
  | Option.some p =>
    match buyDecide args p env.coldkeyBalance with
    | Decision.none => ⟨completed, false, true⟩
    | Decision.execute _ =>
      let completed' :=
        if args.dryRun then completed + 1
        else
          match env.submitResult with
          | Option.none => completed
          | Option.some true => completed + 1
          | Option.some false => completed
      let submitCalled := !args.dryRun
      if args.maxStakes ≠ 0 ∧ args.maxStakes ≤ completed' then ⟨completed', submitCalled, false⟩
      else ⟨completed', submitCalled, true⟩

lemma buyCycle_execute_out (args : Args) (env : CycleEnv) (completed : Nat) (p a : ℚ)
    (hp : env.priceTao = Option.some p)
    (hd : buyDecide args p env.coldkeyBalance = Decision.execute a) :
    (buyCycle args env completed).completed =
      (if args.dryRun then completed + 1
       else
         match env.submitResult with
         | Option.none => completed
         | Option.some true => completed + 1
         | Option.some false => completed)
    ∧ (buyCycle args env completed).submitCalled = !args.dryRun := by
  simp only [buyCycle, hp, hd]
  split <;> (constructor <;> (split <;> simp))

/-- The guard of the while loop, line 230:
`args.max_stakes == 0 or stakes_completed < args.max_stakes`. -/
def loopGuard (args : Args) (completed : Nat) : Bool :=
  args.maxStakes == 0 || completed < args.maxStakes

/-- The while loop run over a finite schedule of cycle environments: returns
the final value of `stakes_completed` and the number of iterations actually
executed (each executed iteration issues exactly one price query).  The guard
of line 230 is checked before each iteration; the `break` of line 346 fires,
when it fires, exactly when the guard would fail before the next iteration, so
checking the guard before each iteration reproduces the loop's control flow. -/
def buyRun (args : Args) : List CycleEnv → Nat → Nat × Nat
  | [], completed => (completed, 0)
  | env :: rest, completed =>
    if loopGuard args completed then
      let r := buyRun args rest (buyCycle args env completed).completed
      (r.1, r.2 + 1)
    else (completed, 0)

lemma buyRun_of_guard_false (args : Args) (envs : List CycleEnv) (completed : Nat)
    (h : loopGuard args completed = false) : buyRun args envs completed = (completed, 0) := by
  cases envs with
  | nil => rfl
  | cons env rest => simp [buyRun, h]

lemma buyCycle_price_fail (args : Args) (env : CycleEnv) (completed : Nat)
    (h : env.priceTao = Option.none) : buyCycle args env completed = ⟨completed, false, true⟩ := by
  simp [buyCycle, h]

/-- The environment of a cycle in which the price query raises. -/
def priceFailEnv : CycleEnv := ⟨Option.none, Option.none, Option.none⟩

lemma buyRun_replicate_priceFail (args : Args) (completed : Nat) (n : Nat)
    (h : loopGuard args completed = true) :
    buyRun args (List.replicate n priceFailEnv) completed = (completed, n) := by
  induction n with
  | zero => rfl
  | succ k ih =>
      rw [List.replicate_succ]
      simp [buyRun, h, buyCycle_price_fail args priceFailEnv completed rfl, ih]

lemma buyCycle_decision_none (args : Args) (env : CycleEnv) (completed : Nat) (p : ℚ)
    (hp : env.priceTao = Option.some p)
    (hd : buyDecide args p env.coldkeyBalance = Decision.none) :
    buyCycle args env completed = ⟨completed, false, true⟩ := by
  simp [buyCycle, hp, hd]

end AutoBuy

namespace Sell

/-- The lower "interest" threshold of `src/sell.py`, line 53: `0.0015` TAO,
gating the periodic status print and the tight-loop branch. -/
def interestThreshold : ℚ := 15 / 10000

/-- The trigger threshold of `src/sell.py`, line 57: `0.0020` TAO, gating the
unstake action. -/
def triggerThreshold : ℚ := 20 / 10000

/-- The mutable state of the sell watcher: the loop counter `cnt` (line 28),
the successful-unstake counter `sell_cnt` (line 30), and the stored baseline
coldkey balance `balance` (line 33, refreshed at line 48). -/
structure State where
  cnt : Nat
  sellCnt : Nat
  balance : ℚ
deriving DecidableEq, Repr

/-- The tail of `unstake()`, lines 44–48 of `src/sell.py`: after the btcli
interaction detaches, the coldkey balance is queried afresh and, exactly when
it strictly exceeds the stored baseline, `sell_cnt` is incremented and the
baseline is replaced by the new balance — both in the same guarded block. -/
def unstakeSettle (newBalance : ℚ) (st : State) : State :=
  if newBalance > st.balance then
    { cnt := st.cnt, sellCnt := st.sellCnt + 1, balance := newBalance }
  else st

/-- The chain-facing events of one iteration of the `while True` loop of
`src/sell.py`: the price query (line 52, `Option.none` = raised) and, when the
trigger fires, the balance observed by the query at line 44 inside `unstake()`
(`Option.none` = the pexpect interaction or the balance query raised before the
comparison at line 45). -/
structure CycleEnv where
  priceTao : Option ℚ
  newBalance : Option ℚ
deriving DecidableEq, Repr

/-- Observable outcome of one iteration: the state afterwards, whether
`unstake()` was invoked, whether the periodic status line was printed, and the
sleep the iteration ends with (in seconds: `0.05` on the above-interest branch,
`0.1` on the idle branch and on a caught exception). -/
structure CycleOut where
  state : State
  unstakeCalled : Bool
  statusPrinted : Bool
  sleepSeconds : ℚ
deriving DecidableEq, Repr

/-- One iteration of the `while True` loop, lines 50–65 of `src/sell.py`.  When
the price query raises, the exception handler prints and sleeps 0.1 s with the
state untouched (lines 63–65).  Otherwise, when `float(price) > 0.0015`: the
status line is printed iff `cnt % 200 == 0` (using `cnt` before its increment),
`cnt` is incremented, and iff `float(price) > 0.0020` the loop calls
`unstake()` — whose settlement is `unstakeSettle` when the interaction
completes, and whose raise (`newBalance = Option.none`) is caught by the outer
handler after `cnt` was already incremented; then the branch sleeps 0.05 s
(0.1 s on the exception path).  When the price is at or below 0.0015 the loop
only sleeps 0.1 s. -/
def sellCycle (env : CycleEnv) (st : State) : CycleOut :=
  match env.priceTao with
  | Option.none => ⟨st, false, false, 1 / 10⟩
  | Option.some p =>
    if p > interestThreshold then
      let printed := decide (st.cnt % 200 = 0)
      let st1 : State := ⟨st.cnt + 1, st.sellCnt, st.balance⟩
      if p > triggerThreshold then
        match env.newBalance with
        | Option.none => ⟨st1, true, printed, 1 / 10⟩
        | Option.some nb => ⟨unstakeSettle nb st1, true, printed, 1 / 20⟩
      else ⟨st1, false, printed, 1 / 20⟩
    else ⟨st, false, false, 1 / 10⟩

/-- The sell watcher run over a finite schedule of cycle environments (the
loop itself is `while True`, so it consumes every scheduled cycle). -/
def sellRun : List CycleEnv → State → State
  | [], st => st
  | env :: rest, st => sellRun rest (sellCycle env st).state

lemma interest_lt_trigger : interestThreshold < triggerThreshold := by
  unfold interestThreshold triggerThreshold
  norm_num

lemma sellCycle_unstake_iff (p : ℚ) (nb : Option ℚ) (st : State) :
    (sellCycle ⟨Option.some p, nb⟩ st).unstakeCalled = true ↔ triggerThreshold < p := by
  unfold sellCycle
  by_cases h2 : p > triggerThreshold
  · have h1 : p > interestThreshold := lt_trans interest_lt_trigger h2
    rcases nb with _ | nb <;> simp [h1, h2]
  · by_cases h1 : p > interestThreshold
    · simp [h1, h2]
    · simp [h1]
      exact le_trans (le_of_not_lt h1) (le_of_lt interest_lt_trigger)

lemma sellCycle_status_iff (p : ℚ) (nb : Option ℚ) (st : State) :
    (sellCycle ⟨Option.some p, nb⟩ st).statusPrinted = true ↔
      interestThreshold < p ∧ st.cnt % 200 = 0 := by
  unfold sellCycle
  by_cases h1 : p > interestThreshold
  · by_cases h2 : p > triggerThreshold
    · rcases nb with _ | nb <;> simp [h1, h2]
    · simp [h1, h2]
  · simp [h1]

lemma unstakeSettle_eq_or (nb : ℚ) (st : State) :
    (nb ≤ st.balance ∧ unstakeSettle nb st = st) ∨
      (st.balance < nb ∧ unstakeSettle nb st = ⟨st.cnt, st.sellCnt + 1, nb⟩) := by
  unfold unstakeSettle
  by_cases h : nb > st.balance
  · exact Or.inr ⟨h, by simp [h]⟩
  · exact Or.inl ⟨not_lt.mp h, by simp [h]⟩

lemma unstakeSettle_balance_le (nb : ℚ) (st : State) :
    st.balance ≤ (unstakeSettle nb st).balance := by
  unfold unstakeSettle
  split
  · exact le_of_lt (by assumption)
  · exact le_refl _

lemma sellCycle_balance_mono (env : CycleEnv) (st : State) :
    st.balance ≤ (sellCycle env st).state.balance := by
  unfold sellCycle
  rcases env with ⟨_ | p, nb⟩
  · exact le_refl _
  · by_cases h1 : p > interestThreshold
    · by_cases h2 : p > triggerThreshold
      · rcases nb with _ | nb
        · simp [h1, h2]
        · simpa [h1, h2] using unstakeSettle_balance_le nb ⟨st.cnt + 1, st.sellCnt, st.balance⟩
      · simp [h1, h2]
    · simp [h1]

lemma sellCycle_balance_of_sellCnt_eq (env : CycleEnv) (st : State)
    (h : (sellCycle env st).state.sellCnt = st.sellCnt) :
    (sellCycle env st).state.balance = st.balance := by
  unfold sellCycle at h ⊢
  rcases env with ⟨_ | p, nb⟩
  · rfl
  · by_cases h1 : p > interestThreshold
    · by_cases h2 : p > triggerThreshold
      · rcases nb with _ | nb
        · simp [h1, h2]
        · simp [h1, h2] at h ⊢
          rcases unstakeSettle_eq_or nb ⟨st.cnt + 1, st.sellCnt, st.balance⟩ with ⟨_, heq⟩ | ⟨_, heq⟩
          · rw [heq]
          · rw [heq] at h
            simp at h
      · simp [h1, h2]
    · simp [h1]

lemma sellCycle_sellCnt_mono (env : CycleEnv) (st : State) :
    st.sellCnt ≤ (sellCycle env st).state.sellCnt := by
  unfold sellCycle
  rcases env with ⟨_ | p, nb⟩
  · exact le_refl _
  · by_cases h1 : p > interestThreshold
    · by_cases h2 : p > triggerThreshold
      · rcases nb with _ | nb
        · simp [h1, h2]
        · rcases unstakeSettle_eq_or nb ⟨st.cnt + 1, st.sellCnt, st.balance⟩ with ⟨_, heq⟩ | ⟨_, heq⟩ <;>
            simp [h1, h2, heq]
      · simp [h1, h2]
    · simp [h1]

lemma sellCycle_raise_sellCnt (q : ℚ) (st : State) :
    (sellCycle ⟨Option.some q, Option.none⟩ st).state.sellCnt = st.sellCnt := by
  unfold sellCycle
  by_cases h1 : q > interestThreshold
  · by_cases h2 : q > triggerThreshold
    · simp [h1, h2]
    · simp [h1, h2]
  · simp [h1]

lemma sellRun_balance_mono (envs : List CycleEnv) (st : State) :
    st.balance ≤ (sellRun envs st).balance := by
  induction envs generalizing st with
  | nil => exact le_refl _
  | cons env rest ih =>
      exact le_trans (sellCycle_balance_mono env st) (ih (sellCycle env st).state)

lemma sellRun_sellCnt_mono (envs : List CycleEnv) (st : State) :
    st.sellCnt ≤ (sellRun envs st).sellCnt := by
  induction envs generalizing st with
  | nil => exact le_refl _
  | cons env rest ih =>
      exact le_trans (sellCycle_sellCnt_mono env st) (ih (sellCycle env st).state)

lemma sellRun_balance_of_sellCnt_eq (envs : List CycleEnv) (st : State)
    (h : (sellRun envs st).sellCnt = st.sellCnt) :
    (sellRun envs st).balance = st.balance := by
  induction envs generalizing st with
  | nil => rfl
  | cons env rest ih =>
      have hstep : st.sellCnt ≤ (sellCycle env st).state.sellCnt :=
        sellCycle_sellCnt_mono env st
      have hrest : (sellCycle env st).state.sellCnt ≤ (sellRun rest (sellCycle env st).state).sellCnt :=
        sellRun_sellCnt_mono rest (sellCycle env st).state
      have hcycle : (sellCycle env st).state.sellCnt = st.sellCnt := by
        simp only [sellRun] at h
        omega
      have hrun : (sellRun rest (sellCycle env st).state).sellCnt = (sellCycle env st).state.sellCnt := by
        simp only [sellRun] at h
        omega
      calc (sellRun (env :: rest) st).balance
          = (sellRun rest (sellCycle env st).state).balance := rfl
        _ = (sellCycle env st).state.balance := ih _ hrun
        _ = st.balance := sellCycle_balance_of_sellCnt_eq env st hcycle

end Sell

namespace MainGuard

/-- The names bound at module scope of `src/auto_buy_alpha.py` when the
interpreter runs it as a script: the `from __future__ import annotations`
binding, the four module-level imports (lines 21–25) and the module-level
definitions (lines 31–34, 37, 56, 190, 200, 206).  The import of `bittensor`
at line 28 sits under `if TYPE_CHECKING:`, which is false at run time, and
the one at line 210 is local to `main`, so neither binds a module-scope
name — in particular `bt` is absent from this list. -/
def moduleScopeNames : List String :=
  ["annotations", "argparse", "sys", "time", "dataclass", "TYPE_CHECKING", "Optional",
   "DEFAULT_THRESHOLD", "DEFAULT_INTERVAL", "DEFAULT_RATE_TOLERANCE", "DEFAULT_NETWORK",
   "Args", "parse_args", "load_wallet", "format_balance", "main"]

/-- How the process ends: a `SystemExit`/return with an exit code, or an
exception that no handler catches (the interpreter prints a traceback and
exits with status 1). -/
inductive ProcessOutcome where
  | exitCode (code : Nat)
  | uncaughtNameError (name : String)
deriving DecidableEq, Repr

/-- The `except KeyboardInterrupt` arm of the `__main__` guard, lines 357–359
of `src/auto_buy_alpha.py`: the handler first evaluates the module-scope name
`bt` (for `bt.logging.warning(...)` at line 358) and only afterwards would
reach `raise SystemExit(130)`; an unbound name raises `NameError` out of the
handler, which nothing catches. -/
def onKeyboardInterrupt : ProcessOutcome :=
  if moduleScopeNames.contains "bt" then ProcessOutcome.exitCode 130
  else ProcessOutcome.uncaughtNameError "bt"

/-- Normal completion, line 356: `raise SystemExit(main(sys.argv[1:]))`, the
process exit code being `main`'s return value (`main` returns 0 at line 351). -/
def onNormalCompletion (mainReturn : Nat) : ProcessOutcome :=
  ProcessOutcome.exitCode mainReturn

end MainGuard

/-!
## Claim theorems
-/

/-- C1: Buy-side trigger condition.  In every poll cycle of the buy watcher
the decision is `execute` exactly when the observed price is at most the
configured threshold and the funding conditions hold; for every price strictly
above the threshold the decision is `none` regardless of balances; and for
every price at or below the threshold with a known liquid balance at least the
(positive, as validated at startup) requested amount and partial execution
disallowed, the decision is `execute` of the requested amount. -/
theorem C1_buy_trigger_condition (args : AutoBuy.Args) (priceTao : ℚ) (bal : Option ℚ) :
    (AutoBuy.buyDecide args priceTao bal ≠ AutoBuy.Decision.none ↔
      priceTao ≤ args.thresholdTao ∧ AutoBuy.fundingOk args bal = true)
    ∧ (args.thresholdTao < priceTao →
        AutoBuy.buyDecide args priceTao bal = AutoBuy.Decision.none)
    ∧ (∀ available : ℚ, priceTao ≤ args.thresholdTao → bal = Option.some available →
        0 < args.amountTao → args.amountTao ≤ available → args.allowPartial = false →
        AutoBuy.buyDecide args priceTao bal = AutoBuy.Decision.execute args.amountTao) := by
  refine ⟨AutoBuy.buyDecide_ne_none_iff args priceTao bal,
    AutoBuy.buyDecide_of_gt args priceTao bal, ?_⟩
  rintro available hp rfl hreq hb hpart
  exact AutoBuy.buyDecide_full args priceTao available hp hreq hb hpart

/-- Witness for C1 at the end-to-end scenario A of the spec: threshold
0.0017, price 0.0010, balance 1.0, requested 0.5, partial disallowed. -/
theorem C1_buy_trigger_condition_witness :
    AutoBuy.buyDecide ⟨17/10000, 1/2, false, 1, false⟩ (1/1000) (Option.some 1) =
      AutoBuy.Decision.execute (1/2) := by
  have h := C1_buy_trigger_condition ⟨17/10000, 1/2, false, 1, false⟩ (1/1000) (Option.some 1)
  exact h.2.2 1 (by norm_num) rfl (by norm_num) (by norm_num) rfl

/-- C2 counterexample: at a price exactly equal to the sell trigger threshold
0.0020 TAO, the sell watcher does not call unstake — the comparison at line 57
of `src/sell.py` is the strict `float(price) > 0.0020`, so the claim that a
boundary price triggers in both variants is false. -/
theorem C2_boundary_counterexample :
    (Sell.sellCycle ⟨Option.some Sell.triggerThreshold, Option.some 100⟩
      ⟨0, 0, 0⟩).unstakeCalled = false := by
  norm_num [Sell.sellCycle, Sell.interestThreshold, Sell.triggerThreshold]

/-- C2 amended: a price exactly equal to the threshold triggers in the buy
watcher (its comparison is `≤`, so with the funding conditions holding the
decision at the boundary is not `none`), while the sell watcher triggers
exactly for prices strictly above its trigger threshold (its comparison is
`>`), and in particular does not trigger at a price equal to it. -/
theorem C2_boundary_amended (args : AutoBuy.Args) (bal : Option ℚ) (p : ℚ)
    (nb : Option ℚ) (st : Sell.State) :
    (AutoBuy.fundingOk args bal = true →
      AutoBuy.buyDecide args args.thresholdTao bal ≠ AutoBuy.Decision.none)
    ∧ ((Sell.sellCycle ⟨Option.some p, nb⟩ st).unstakeCalled = true ↔
        Sell.triggerThreshold < p)
    ∧ (Sell.sellCycle ⟨Option.some Sell.triggerThreshold, nb⟩ st).unstakeCalled = false := by
  refine ⟨?_, Sell.sellCycle_unstake_iff p nb st, ?_⟩
  · intro hf
    exact (AutoBuy.buyDecide_ne_none_iff args args.thresholdTao bal).mpr ⟨le_refl _, hf⟩
  · rcases Bool.eq_false_or_eq_true
      (Sell.sellCycle ⟨Option.some Sell.triggerThreshold, nb⟩ st).unstakeCalled with h | h
    · exact absurd ((Sell.sellCycle_unstake_iff _ nb st).mp h) (lt_irrefl _)
    · exact h

/-- Witness for C2 amended: the buy watcher acts at a price equal to its
threshold, and the sell watcher acts at a price strictly above 0.0020. -/
theorem C2_boundary_amended_witness :
    AutoBuy.buyDecide ⟨17/10000, 1/2, false, 1, false⟩ (17/10000) (Option.some 1) ≠
      AutoBuy.Decision.none
    ∧ (Sell.sellCycle ⟨Option.some (3/1000), Option.some 5⟩ ⟨0, 0, 1⟩).unstakeCalled = true := by
  have h := C2_boundary_amended ⟨17/10000, 1/2, false, 1, false⟩ (Option.some 1) (3/1000)
    (Option.some 5) ⟨0, 0, 1⟩
  exact ⟨h.1 (by norm_num [AutoBuy.fundingOk]), h.2.1.mpr (by norm_num [Sell.triggerThreshold])⟩

/-- C3: Insufficient-balance sizing.  In a triggering buy cycle with a known
liquid balance `b`, `0 < b <` requested, the decision is `none` when partial
execution is disallowed and `execute b = execute (min b requested)` when it is
allowed. -/
theorem C3_insufficient_balance_sizing (threshold amount p b : ℚ) (maxStakes : Nat)
    (dryRun : Bool) (hp : p ≤ threshold) (hb0 : 0 < b) (hlt : b < amount) :
    AutoBuy.buyDecide ⟨threshold, amount, false, maxStakes, dryRun⟩ p (Option.some b) =
      AutoBuy.Decision.none
    ∧ AutoBuy.buyDecide ⟨threshold, amount, true, maxStakes, dryRun⟩ p (Option.some b) =
      AutoBuy.Decision.execute b
    ∧ AutoBuy.Decision.execute b = AutoBuy.Decision.execute (min b amount) := by
  have hmin : min b amount = b := min_eq_left (le_of_lt hlt)
  refine ⟨?_, ?_, by rw [hmin]⟩
  · simp [AutoBuy.buyDecide, hp, not_le.mpr hb0, hlt]
  · simp [AutoBuy.buyDecide, hp, not_le.mpr hb0, hmin]

/-- Witness for C3 at the end-to-end scenarios B and C of the spec: threshold
0.0017, price 0.0010, balance 0.3, requested 0.5. -/
theorem C3_insufficient_balance_sizing_witness :
    AutoBuy.buyDecide ⟨17/10000, 1/2, false, 1, false⟩ (1/1000) (Option.some (3/10)) =
      AutoBuy.Decision.none
    ∧ AutoBuy.buyDecide ⟨17/10000, 1/2, true, 1, false⟩ (1/1000) (Option.some (3/10)) =
      AutoBuy.Decision.execute (3/10) := by
  have h := C3_insufficient_balance_sizing (17/10000) (1/2) (1/1000) (3/10) 1 false
    (by norm_num) (by norm_num) (by norm_num)
  exact ⟨h.1, h.2.1⟩

/-- C4: Missing or non-positive balance.  In every buy cycle, a failed balance
query or a known balance at most zero yields the decision `none` for every
price, requested amount and allow-partial setting; the cycle completes with the
counter unchanged and no submission, and the loop goes on to execute the
remaining scheduled cycles rather than failing. -/
theorem C4_missing_or_nonpositive_balance (args : AutoBuy.Args) (p b : ℚ)
    (s : Option Bool) (completed : Nat) (envs : List AutoBuy.CycleEnv) :
    AutoBuy.buyDecide args p Option.none = AutoBuy.Decision.none
    ∧ (b ≤ 0 → AutoBuy.buyDecide args p (Option.some b) = AutoBuy.Decision.none)
    ∧ AutoBuy.buyCycle args ⟨Option.some p, Option.none, s⟩ completed = ⟨completed, false, true⟩
    ∧ (AutoBuy.loopGuard args completed = true →
        AutoBuy.buyRun args (⟨Option.some p, Option.none, s⟩ :: envs) completed =
          ((AutoBuy.buyRun args envs completed).1, (AutoBuy.buyRun args envs completed).2 + 1)) := by
  have hdec : AutoBuy.buyDecide args p Option.none = AutoBuy.Decision.none := by
    simp [AutoBuy.buyDecide]
  have hcyc : AutoBuy.buyCycle args ⟨Option.some p, Option.none, s⟩ completed =
      ⟨completed, false, true⟩ :=
    AutoBuy.buyCycle_decision_none args _ completed p rfl hdec
  refine ⟨hdec, ?_, hcyc, ?_⟩
  · intro hb
    simp [AutoBuy.buyDecide, hb]
  · intro hg
    simp [AutoBuy.buyRun, hg, hcyc]

/-- Witness for C4: a zero balance yields no action, and a cycle whose balance
query raised leaves the counter at 0 while the loop keeps running. -/
theorem C4_missing_or_nonpositive_balance_witness :
    AutoBuy.buyDecide ⟨17/10000, 1/2, false, 1, false⟩ (1/1000) (Option.some 0) =
      AutoBuy.Decision.none
    ∧ AutoBuy.buyRun ⟨17/10000, 1/2, false, 1, false⟩
        [⟨Option.some (1/1000), Option.none, Option.none⟩] 0 = (0, 1) := by
  have h := C4_missing_or_nonpositive_balance ⟨17/10000, 1/2, false, 1, false⟩ (1/1000) 0
    Option.none 0 []
  refine ⟨h.2.1 (by norm_num), ?_⟩
  have h2 := h.2.2.2 (by decide)
  simpa [AutoBuy.buyRun] using h2

/-- C5: Action-counter discipline.  In a cycle whose decision is `execute`,
the buy watcher increments `stakes_completed` without calling the chain in
dry-run mode; in live mode it calls `add_stake` and increments exactly on the
return value `True`, leaving the counter unchanged on a `False` return or a
raise, and a raise does not terminate the loop; the sell watcher increments
`sell_cnt` exactly when the post-submission balance strictly exceeds the
stored baseline, and a raise inside `unstake()` leaves `sell_cnt`
unchanged. -/
theorem C5_action_counter_discipline (args : AutoBuy.Args) (env : AutoBuy.CycleEnv)
    (completed : Nat) (p a nb q : ℚ) (st : Sell.State) (envs : List AutoBuy.CycleEnv)
    (hp : env.priceTao = Option.some p)
    (hd : AutoBuy.buyDecide args p env.coldkeyBalance = AutoBuy.Decision.execute a) :
    (args.dryRun = true →
      (AutoBuy.buyCycle args env completed).completed = completed + 1
      ∧ (AutoBuy.buyCycle args env completed).submitCalled = false)
    ∧ (args.dryRun = false → env.submitResult = Option.some true →
      (AutoBuy.buyCycle args env completed).completed = completed + 1
      ∧ (AutoBuy.buyCycle args env completed).submitCalled = true)
    ∧ (args.dryRun = false → env.submitResult = Option.some false →
      (AutoBuy.buyCycle args env completed).completed = completed
      ∧ (AutoBuy.buyCycle args env completed).submitCalled = true)
    ∧ (args.dryRun = false → env.submitResult = Option.none →
      (AutoBuy.buyCycle args env completed).completed = completed
      ∧ (AutoBuy.buyCycle args env completed).submitCalled = true)
    ∧ (args.dryRun = false → env.submitResult = Option.none →
        AutoBuy.loopGuard args completed = true →
        (AutoBuy.buyRun args (env :: envs) completed).2 =
          (AutoBuy.buyRun args envs completed).2 + 1)
    ∧ (st.balance < nb → Sell.unstakeSettle nb st = ⟨st.cnt, st.sellCnt + 1, nb⟩)
    ∧ (nb ≤ st.balance → Sell.unstakeSettle nb st = st)
    ∧ (Sell.sellCycle ⟨Option.some q, Option.none⟩ st).state.sellCnt = st.sellCnt := by
  have hout := AutoBuy.buyCycle_execute_out args env completed p a hp hd
  refine ⟨?_, ?_, ?_, ?_, ?_, ?_, ?_, Sell.sellCycle_raise_sellCnt q st⟩
  · intro h1
    rw [h1] at hout
    simpa using hout
  · intro h1 h2
    rw [h1, h2] at hout
    simpa using hout
  · intro h1 h2
    rw [h1, h2] at hout
    simpa using hout
  · intro h1 h2
    rw [h1, h2] at hout
    simpa using hout
  · intro h1 h2 hg
    rw [h1, h2] at hout
    simp [AutoBuy.buyRun, hg, hout.1]
  · intro h
    rcases Sell.unstakeSettle_eq_or nb st with ⟨hle, _⟩ | ⟨_, heq⟩
    · exact absurd h (not_lt.mpr hle)
    · exact heq
  · intro h
    rcases Sell.unstakeSettle_eq_or nb st with ⟨_, heq⟩ | ⟨hlt, _⟩
    · exact heq
    · exact absurd hlt (not_lt.mpr h)

/-- Witness for C5: a live cycle whose submission returns `True` moves the
counter from 0 to 1, and a sell settlement with a strictly increased balance
counts the sale and stores the new baseline. -/
theorem C5_action_counter_discipline_witness :
    (AutoBuy.buyCycle ⟨17/10000, 1/2, false, 2, false⟩
        ⟨Option.some (1/1000), Option.some 1, Option.some true⟩ 0).completed = 1
    ∧ Sell.unstakeSettle 5 ⟨3, 0, 1⟩ = ⟨3, 1, 5⟩ := by
  have h := C5_action_counter_discipline ⟨17/10000, 1/2, false, 2, false⟩
    ⟨Option.some (1/1000), Option.some 1, Option.some true⟩ 0 (1/1000) (1/2) 5 0 ⟨3, 0, 1⟩ []
    rfl
    (AutoBuy.buyDecide_full ⟨17/10000, 1/2, false, 2, false⟩ (1/1000) 1
      (by norm_num) (by norm_num) (by norm_num) rfl)
  exact ⟨(h.2.1 rfl rfl).1, h.2.2.2.2.2.1 (by norm_num)⟩

/-- C6: Price-query failure is recoverable.  A buy cycle whose price query
raised leaves the counter unchanged, submits nothing and sleeps the full
interval; a sequence of N consecutive such failures leaves the counter
unchanged while the loop executes all N cycles and keeps polling; and a sell
cycle whose price query raised leaves the whole state unchanged. -/
theorem C6_price_failure_recoverable (args : AutoBuy.Args) (env : AutoBuy.CycleEnv)
    (completed n : Nat) (st : Sell.State) (henv : env.priceTao = Option.none) :
    AutoBuy.buyCycle args env completed = ⟨completed, false, true⟩
    ∧ (AutoBuy.loopGuard args completed = true →
        AutoBuy.buyRun args (List.replicate n AutoBuy.priceFailEnv) completed = (completed, n))
    ∧ Sell.sellCycle ⟨Option.none, Option.none⟩ st = ⟨st, false, false, 1/10⟩ :=
  ⟨AutoBuy.buyCycle_price_fail args env completed henv,
    fun hg => AutoBuy.buyRun_replicate_priceFail args completed n hg, rfl⟩

/-- Witness for C6: three consecutive price-query failures leave the counter
at 0 and the loop executes all three cycles. -/
theorem C6_price_failure_recoverable_witness :
    AutoBuy.buyRun ⟨17/10000, 1/2, false, 1, false⟩
      (List.replicate 3 AutoBuy.priceFailEnv) 0 = (0, 3) := by
  have h := C6_price_failure_recoverable ⟨17/10000, 1/2, false, 1, false⟩
    AutoBuy.priceFailEnv 0 3 ⟨0, 0, 0⟩ rfl
  exact h.2.1 (by decide)

/-- C7: Stop condition.  When `max_stakes` is positive and the counter has
reached it, the loop executes no further cycles (so issues no further price or
balance queries); when `max_stakes = 0` the loop consumes every scheduled
cycle, never stopping on its own. -/
theorem C7_stop_condition (args : AutoBuy.Args) (completed : Nat)
    (envs : List AutoBuy.CycleEnv) :
    (0 < args.maxStakes → args.maxStakes ≤ completed →
      AutoBuy.buyRun args envs completed = (completed, 0))
    ∧ (args.maxStakes = 0 → (AutoBuy.buyRun args envs completed).2 = envs.length) := by
  constructor
  · intro h1 h2
    apply AutoBuy.buyRun_of_guard_false
    unfold AutoBuy.loopGuard
    rw [Bool.or_eq_false_iff]
    constructor
    · exact beq_eq_false_iff_ne.mpr (by omega)
    · exact decide_eq_false (by omega)
  · intro h0
    induction envs generalizing completed with
    | nil => rfl
    | cons env rest ih => simp [AutoBuy.buyRun, AutoBuy.loopGuard, h0, ih]

/-- Witness for C7, spec scenario D: with max-actions 1 and the counter
already at 1 no cycle is executed, while with max-actions 0 all three
scheduled cycles run. -/
theorem C7_stop_condition_witness :
    AutoBuy.buyRun ⟨17/10000, 1/2, false, 1, true⟩
      (List.replicate 3 ⟨Option.some (1/1000), Option.some 1, Option.none⟩) 1 = (1, 0)
    ∧ (AutoBuy.buyRun ⟨17/10000, 1/2, false, 0, true⟩
        (List.replicate 3 ⟨Option.some (1/1000), Option.some 1, Option.none⟩) 0).2 = 3 := by
  have h1 := C7_stop_condition ⟨17/10000, 1/2, false, 1, true⟩ 1
    (List.replicate 3 ⟨Option.some (1/1000), Option.some 1, Option.none⟩)
  have h2 := C7_stop_condition ⟨17/10000, 1/2, false, 0, true⟩ 0
    (List.replicate 3 ⟨Option.some (1/1000), Option.some 1, Option.none⟩)
  refine ⟨h1.1 (by norm_num) (by norm_num), ?_⟩
  have h3 := h2.2 rfl
  simpa using h3

/-- C8: Threshold separation in the sell variant.  The unstake action fires
exactly when the price satisfies the trigger-threshold comparison of line 57
(strictly above 0.0020 TAO), and the lower interest threshold of line 53
gates only the periodic status line — printed exactly when the price is
strictly above 0.0015 TAO and the loop counter is a multiple of 200 — never
whether the unstake action is taken. -/
theorem C8_threshold_separation (p : ℚ) (nb : Option ℚ) (st : Sell.State) :
    ((Sell.sellCycle ⟨Option.some p, nb⟩ st).unstakeCalled = true ↔
      Sell.triggerThreshold < p)
    ∧ ((Sell.sellCycle ⟨Option.some p, nb⟩ st).statusPrinted = true ↔
        Sell.interestThreshold < p ∧ st.cnt % 200 = 0) :=
  ⟨Sell.sellCycle_unstake_iff p nb st, Sell.sellCycle_status_iff p nb st⟩

/-- C9: Operator interrupt (evaluation at the failing input).  On
KeyboardInterrupt the handler of lines 357–359 evaluates the unbound
module-scope name `bt` and the process dies with an uncaught NameError —
never reaching `raise SystemExit(130)` — while normal completion does exit
with code 0. -/
theorem C9_interrupt_exit_eval :
    MainGuard.onKeyboardInterrupt = MainGuard.ProcessOutcome.uncaughtNameError "bt"
    ∧ MainGuard.onKeyboardInterrupt ≠ MainGuard.ProcessOutcome.exitCode 130
    ∧ MainGuard.onNormalCompletion 0 = MainGuard.ProcessOutcome.exitCode 0 :=
  ⟨by decide, by decide, rfl⟩

/-- C10: Sell-state atomicity and monotonicity.  Every settlement of
`unstake()` either leaves the state unchanged or increments `sell_cnt` by
exactly one while storing the new balance as the baseline — the two fields
change together or not at all, according to whether the freshly queried
balance strictly exceeds the baseline; consequently over any run the baseline
is non-decreasing and, when no sale was counted, unchanged. -/
theorem C10_sell_state_atomicity (nb : ℚ) (st : Sell.State) (envs : List Sell.CycleEnv) :
    (Sell.unstakeSettle nb st = st ∨
      Sell.unstakeSettle nb st = ⟨st.cnt, st.sellCnt + 1, nb⟩)
    ∧ (st.balance < nb → Sell.unstakeSettle nb st = ⟨st.cnt, st.sellCnt + 1, nb⟩)
    ∧ (nb ≤ st.balance → Sell.unstakeSettle nb st = st)
    ∧ st.balance ≤ (Sell.sellRun envs st).balance
    ∧ ((Sell.sellRun envs st).sellCnt = st.sellCnt →
        (Sell.sellRun envs st).balance = st.balance) := by
  rcases Sell.unstakeSettle_eq_or nb st with ⟨hle, heq⟩ | ⟨hlt, heq⟩
  · exact ⟨Or.inl heq, fun h => absurd h (not_lt.mpr hle), fun _ => heq,
      Sell.sellRun_balance_mono envs st, Sell.sellRun_balance_of_sellCnt_eq envs st⟩
  · exact ⟨Or.inr heq, fun _ => heq, fun h => absurd hlt (not_lt.mpr h),
      Sell.sellRun_balance_mono envs st, Sell.sellRun_balance_of_sellCnt_eq envs st⟩

/-- Witness for C10: a settlement at a strictly larger balance counts the
sale and moves the baseline; one at an unchanged balance changes nothing. -/
theorem C10_sell_state_atomicity_witness :
    Sell.unstakeSettle 7 ⟨2, 1, 3⟩ = ⟨2, 2, 7⟩
    ∧ Sell.unstakeSettle 3 ⟨2, 1, 3⟩ = ⟨2, 1, 3⟩ := by
  have h1 := C10_sell_state_atomicity 7 ⟨2, 1, 3⟩ []
  have h2 := C10_sell_state_atomicity 3 ⟨2, 1, 3⟩ []
  exact ⟨h1.2.1 (by norm_num), h2.2.2.1 (by norm_num)⟩
